import Mathlib

/-!
Shallow embedding of `src/consensus-proof/src/milestone.rs` (the milestone
quorum-verification core of `pos-consensus-proof`).

Machine integers (`Uint<256, 4>` from `alloy_primitives`) are modelled as `Nat`
with explicit `% (2 ^ 256 - 1)` where the source uses `add_mod` / `mul_mod`
with `Uint::MAX` as the modulus.  Addresses and 32-byte digests are modelled as
`Nat`; byte vectors as `List Nat`.

The helper crate (`crate::helper`: `verify_tx_data`, `verify_precommit`,
`verify_signature`), `reth_primitives::keccak256` / `Header::hash_slow`, and
the `sp1_cc_client_executor` verified-state subsystem are not part of the
source under verification; the spec treats them as external pure collaborators
with fixed contracts, so they appear here as abstract function fields of an
environment record `Env`.  Every fallible external step is an `Option`; a Rust
panic / failed `assert!` in `prove` itself is an explicit `ProveError`.
-/

namespace PosConsensus

/-- Validator / contract addresses (`alloy_primitives::Address`). -/
abbrev Address := Nat

/-- Modulus used by the source for `add_mod` / `mul_mod`: `Uint::MAX = 2^256 - 1`. -/
def U256MAX : Nat := 2 ^ 256 - 1

/-- The milestone decoded from the transaction payload by `verify_tx_data`:
end block number and end block hash (a byte vector, compared against
`Header::hash_slow().to_vec()`). -/
structure Milestone where
  end_block : Nat
  hash : List Nat

/-- A bor block header; only `number` is inspected directly by `prove`, the
remaining fields are abstracted into `extra` and only reach the abstract
`hash_slow`. -/
structure Header where
  number : Nat
  extra : Nat

/-- The input record `MilestoneProofInputs` of the source. -/
structure MilestoneProofInputs where
  tx_data : String
  tx_hash : Nat
  precommits : List (List Nat)
  sigs : List String
  signers : List Address
  bor_header : Header
  bor_block_hash : Nat
  state_sketch_bytes : List Nat
  l1_block_hash : Nat

/-- The calldata built by `prove`: the source constructs exactly the
argument-less `getEncodedValidatorInfoCall`. -/
inductive CallData where
  | getEncodedValidatorInfo

/-- `sp1_cc_client_executor::ContractInput` as built in `prove`. -/
structure ContractInput where
  contract_address : Address
  caller_address : Address
  calldata : CallData

/-- The fixed verifier contract address from the source:
`address!("1d42064Fc4Beb5F8aAF85F4617AE8b3b5B8Bd801")`. -/
def VERIFIER_CONTRACT : Address := 0x1d42064Fc4Beb5F8aAF85F4617AE8b3b5B8Bd801

/-- The fixed caller address from the source: the all-zero address. -/
def CALLER : Address := 0

/-- Each way `prove` can abort (each `assert!`, `unwrap()` or `panic!` of the
source, in source order).  The per-precommit failures carry the loop index. -/
inductive ProveError where
  | txDataError
  | headerNumberMismatch
  | headerHashMismatch
  | lengthMismatch
  | sketchDecodeError
  | stateProofError
  | stateCallError
  | powersIndexOutOfBounds
  | unauthorizedSigner (i : Nat)
  | precommitMismatch (i : Nat)
  | signatureInvalid (i : Nat)
  | quorumNotReached

/-- Modelled from the spec: the external pure collaborators of the core, which
live outside `src/` (the `crate::helper` functions, `keccak256`,
`Header::hash_slow`, and the `sp1_cc_client_executor` verified-state
subsystem).  The spec fixes only their interfaces, so they are abstract
fields; the opaque intermediate values (state sketch, client executor,
contract output) are represented by `Nat` / `List Nat` tokens. -/
structure Env where
  verify_tx_data : String → Nat → Option Milestone
  hash_slow : Header → List Nat
  verify_precommit : List Nat → Nat → Bool
  keccak256 : List Nat → Nat
  verify_signature : String → Nat → Address → Bool
  deserialize : List Nat → Option Nat
  clientExecutorNew : Nat → Option Nat
  execute : Nat → ContractInput → Option (List Nat)
  abi_decode_returns : List Nat → Option (List Address × List Nat × Nat)

/-- `Uint::add_mod` of the source: `(a + b) % m`, computed without overflow. -/
def addMod (a b m : Nat) : Nat := (a + b) % m

/-- `Uint::mul_mod` of the source: `(a * b) % m`, computed without overflow. -/
def mulMod (a b m : Nat) : Nat := (a * b) % m

/-- `Uint::div_ceil` of the source: exact ceiling division. -/
def divCeil (a b : Nat) : Nat := a / b + (if a % b = 0 then 0 else 1)

/-- The registry construction of `prove` (lines 98-101): iterate over the
decoded signer addresses with their index, inserting `powers[i]`; indexing
`powers[i]` out of bounds is the Rust panic, modelled as `none`.  Insertion
prepends, and `stakesLookup` takes the first hit, matching `HashMap::insert`
overwrite semantics for repeated addresses. -/
def buildStakes (powers : List Nat) : List Address → Nat → List (Address × Nat) →
    Option (List (Address × Nat))
  | [], _, acc => some acc
  | signer :: rest, i, acc =>
    match powers[i]? with
    | none => none
    | some p => buildStakes powers rest (i + 1) ((signer, p) :: acc)

/-- `HashMap::get` / `contains_key` over the registry built by `buildStakes`. -/
def stakesLookup (validator_stakes : List (Address × Nat)) (a : Address) : Option Nat :=
  (validator_stakes.find? (fun p => p.1 == a)).map (fun p => p.2)

/-- `List.zip3`-style pairing of the three parallel sequences; `prove` only
uses it after the length-equality asserts, where it coincides with the
source's indexed loop `for i in 0..precommits.len()`. -/
def zip3 : List (List Nat) → List String → List Address → List (List Nat × String × Address)
  | pc :: pcs, sg :: sgs, a :: addrs => (pc, sg, a) :: zip3 pcs sgs addrs
  | _, _, _ => []

/-- The per-precommit loop of `prove` (lines 105-123), carrying the loop index
and the (immutable, per the source) `majority_power`.  Note the source binds
the result of `add_mod` to `_` and never updates `majority_power`; the
embedding mirrors this with a discarded `let`. -/
def precommitLoop (env : Env) (validator_stakes : List (Address × Nat)) (tx_hash : Nat) :
    List (List Nat × String × Address) → Nat → Nat → Except ProveError Nat
  | [], _, majority_power => Except.ok majority_power
  | (precommit, sig, signer) :: rest, i, majority_power =>
    match stakesLookup validator_stakes signer with
    | none => Except.error (ProveError.unauthorizedSigner i)
    | some power =>
      if env.verify_precommit precommit tx_hash then
        if env.verify_signature sig (env.keccak256 precommit) signer then
          let _ignored := addMod majority_power power U256MAX
          precommitLoop env validator_stakes tx_hash rest (i + 1) majority_power
        else Except.error (ProveError.signatureInvalid i)
      else Except.error (ProveError.precommitMismatch i)

/-- `expected_majority` of the source (lines 126-128):
`total_power.mul_mod(2, Uint::MAX).div_ceil(3)`. -/
def expectedMajority (total_power : Nat) : Nat :=
  divCeil (mulMod total_power 2 U256MAX) 3

/-- The final threshold comparison of `prove` (lines 129-131): panic unless
`majority_power > expected_majority` strictly. -/
def thresholdStage (majority_power total_power : Nat) : Except ProveError Unit :=
  if majority_power ≤ expectedMajority total_power then
    Except.error ProveError.quorumNotReached
  else Except.ok ()

/-- The single fixed `ContractInput` that `prove` builds for its one
`getEncodedValidatorInfo` call: the fixed verifier contract address and the
all-zero caller. -/
def theValidatorInfoCall : ContractInput :=
  ⟨VERIFIER_CONTRACT, CALLER, CallData.getEncodedValidatorInfo⟩

/-- `prove` from the state-sketch deserialization onwards (lines 70-131).
The second component is the trace of `ContractInput`s passed to the verified
state view's `execute`; the source calls `execute` exactly once. -/
def proveFromStateRead (env : Env) (inputs : MilestoneProofInputs) :
    Except ProveError Unit × List ContractInput :=
  match env.deserialize inputs.state_sketch_bytes with
  | none => (Except.error ProveError.sketchDecodeError, [])
  | some state_sketch =>
    match env.clientExecutorNew state_sketch with
    | none => (Except.error ProveError.stateProofError, [])
    | some executor =>
      match env.execute executor theValidatorInfoCall with
      | none => (Except.error ProveError.stateCallError, [theValidatorInfoCall])
      | some output =>
        match env.abi_decode_returns output with
        | none => (Except.error ProveError.stateCallError, [theValidatorInfoCall])
        | some (signers, powers, total_power) =>
          match buildStakes powers signers 0 [] with
          | none => (Except.error ProveError.powersIndexOutOfBounds, [theValidatorInfoCall])
          | some validator_stakes =>
            match precommitLoop env validator_stakes inputs.tx_hash
                (zip3 inputs.precommits inputs.sigs inputs.signers) 0 0 with
            | Except.error e => (Except.error e, [theValidatorInfoCall])
            | Except.ok majority_power =>
              (thresholdStage majority_power total_power, [theValidatorInfoCall])

/-- The two length-equality asserts of `prove` (lines 66-68), then the rest. -/
def proveFromLengthCheck (env : Env) (inputs : MilestoneProofInputs) :
    Except ProveError Unit × List ContractInput :=
  if inputs.precommits.length = inputs.sigs.length then
    if inputs.sigs.length = inputs.signers.length then
      proveFromStateRead env inputs
    else (Except.error ProveError.lengthMismatch, [])
  else (Except.error ProveError.lengthMismatch, [])

/-- `MilestoneProver::prove` (lines 51-132): transaction-data integrity check,
the two header asserts, then the length checks and the rest. -/
def prove (env : Env) (inputs : MilestoneProofInputs) :
    Except ProveError Unit × List ContractInput :=
  match env.verify_tx_data inputs.tx_data inputs.tx_hash with
  | none => (Except.error ProveError.txDataError, [])
  | some milestone =>
    if milestone.end_block = inputs.bor_header.number then
      if milestone.hash = env.hash_slow inputs.bor_header then
        proveFromLengthCheck env inputs
      else (Except.error ProveError.headerHashMismatch, [])
    else (Except.error ProveError.headerNumberMismatch, [])

/-- Modelled from the spec: the accumulated power the spec describes in §4.6
step 4 — the sum over all precommit indices of the registered stake of
`signers[i]`, each occurrence counted separately, in unsigned 256-bit
arithmetic.  Used only to compare the spec's accumulator against the
source's. -/
def signedStakeSum (validator_stakes : List (Address × Nat)) : List Address → Option Nat
  | [] => some 0
  | a :: rest =>
    match stakesLookup validator_stakes a, signedStakeSum validator_stakes rest with
    | some p, some s => some ((p + s) % 2 ^ 256)
    | _, _ => none

/-!
Concrete fixtures used by witnesses and counterexamples.  `env1` realizes the
spec's "single validator, full power" scenario (§8): the external collaborators
all succeed, the decoded validator set is one signer (address `1`) holding
`100` of `100` total power, and every precommit / signature check passes.
-/

/-- Environment for the single-validator, full-power scenario. -/
def env1 : Env where
  verify_tx_data := fun _ _ => some ⟨5, [7]⟩
  hash_slow := fun _ => [7]
  verify_precommit := fun _ _ => true
  keccak256 := fun _ => 0
  verify_signature := fun _ _ _ => true
  deserialize := fun _ => some 0
  clientExecutorNew := fun _ => some 0
  execute := fun _ _ => some [0]
  abi_decode_returns := fun _ => some ([1], [100], 100)

/-- Environment identical to `env1` except the decoded validator set is empty
with total power `0` (the degenerate all-zero case of the spec). -/
def env0 : Env where
  verify_tx_data := fun _ _ => some ⟨5, [7]⟩
  hash_slow := fun _ => [7]
  verify_precommit := fun _ _ => true
  keccak256 := fun _ => 0
  verify_signature := fun _ _ _ => true
  deserialize := fun _ => some 0
  clientExecutorNew := fun _ => some 0
  execute := fun _ _ => some [0]
  abi_decode_returns := fun _ => some ([], [], 0)

/-- One precommit, signed by validator `1`; consistent with `env1`. -/
def inputs1 : MilestoneProofInputs where
  tx_data := ""
  tx_hash := 0
  precommits := [[1]]
  sigs := ["s"]
  signers := [1]
  bor_header := ⟨5, 0⟩
  bor_block_hash := 0
  state_sketch_bytes := []
  l1_block_hash := 0

/-- Empty precommit, signature and signer sequences. -/
def inputsEmpty : MilestoneProofInputs where
  tx_data := ""
  tx_hash := 0
  precommits := []
  sigs := []
  signers := []
  bor_header := ⟨5, 0⟩
  bor_block_hash := 0
  state_sketch_bytes := []
  l1_block_hash := 0

/-- One precommit but no signature: mismatched parallel lengths. -/
def inputsMis : MilestoneProofInputs where
  tx_data := ""
  tx_hash := 0
  precommits := [[1]]
  sigs := []
  signers := [1]
  bor_header := ⟨5, 0⟩
  bor_block_hash := 0
  state_sketch_bytes := []
  l1_block_hash := 0

/-- Same sequence lengths as `inputsMis` but different elements everywhere. -/
def inputsMis2 : MilestoneProofInputs where
  tx_data := ""
  tx_hash := 0
  precommits := [[9, 9]]
  sigs := []
  signers := [2]
  bor_header := ⟨5, 0⟩
  bor_block_hash := 0
  state_sketch_bytes := []
  l1_block_hash := 0

/-!
Helper lemmas shared by several claims.
-/

/-- The source never stores the result of `add_mod`, so the per-precommit loop
returns its accumulator argument unchanged whenever it completes. -/
lemma precommitLoop_ok_eq (env : Env) (validator_stakes : List (Address × Nat)) (tx_hash : Nat) :
    ∀ (l : List (List Nat × String × Address)) (i m r : Nat),
      precommitLoop env validator_stakes tx_hash l i m = Except.ok r → r = m := by
  intro l
  induction l with
  | nil =>
    intro i m r h
    simp [precommitLoop] at h
    exact h.symm
  | cons head rest ih =>
    intro i m r h
    obtain ⟨pc, sig, signer⟩ := head
    simp only [precommitLoop] at h
    cases hl : stakesLookup validator_stakes signer with
    | none => rw [hl] at h; simp at h
    | some p =>
      rw [hl] at h
      by_cases h1 : env.verify_precommit pc tx_hash
      · by_cases h2 : env.verify_signature sig (env.keccak256 pc) signer
        · simp only [h1, h2, if_true] at h
          exact ih (i + 1) m r h
        · simp [h1, h2] at h
      · simp [h1] at h

/-- The threshold stage rejects a zero accumulator for every total power. -/
lemma thresholdStage_zero (total_power : Nat) :
    thresholdStage 0 total_power = Except.error ProveError.quorumNotReached := by
  simp [thresholdStage]

/-- From the state read onwards, `prove` never succeeds: the loop hands the
initial accumulator `0` to the threshold stage, which rejects it. -/
lemma proveFromStateRead_never_ok (env : Env) (inputs : MilestoneProofInputs) :
    (proveFromStateRead env inputs).1 ≠ Except.ok () := by
  unfold proveFromStateRead
  split
  · simp
  · split
    · simp
    · split
      · simp
      · split
        · simp
        · split
          · simp
          · split
            · simp
            · rename_i mp hl
              have hmp : mp = 0 :=
                precommitLoop_ok_eq env _ inputs.tx_hash _ 0 0 mp hl
              subst hmp
              simp [thresholdStage_zero]

/-- Mismatched parallel lengths make `proveFromLengthCheck` abort with the
length error, issuing no contract call. -/
lemma proveFromLengthCheck_mismatch (env : Env) (inputs : MilestoneProofInputs)
    (h : ¬ (inputs.precommits.length = inputs.sigs.length ∧
            inputs.sigs.length = inputs.signers.length)) :
    proveFromLengthCheck env inputs = (Except.error ProveError.lengthMismatch, []) := by
  unfold proveFromLengthCheck
  by_cases h1 : inputs.precommits.length = inputs.sigs.length
  · have h2 : inputs.sigs.length ≠ inputs.signers.length := fun hc => h ⟨h1, hc⟩
    rw [if_pos h1, if_neg h2]
  · rw [if_neg h1]

/-- `prove` never succeeds on any input with any environment: the accumulated
power the final comparison sees is always the initial `0`. -/
lemma prove_never_ok (env : Env) (inputs : MilestoneProofInputs) :
    (prove env inputs).1 ≠ Except.ok () := by
  unfold prove
  split
  · simp
  · split
    · split
      · unfold proveFromLengthCheck
        split
        · split
          · exact proveFromStateRead_never_ok env inputs
          · simp
        · simp
      · simp
    · simp

/-- The trace of contract calls `proveFromStateRead` issues is empty (failure
before the view is usable) or exactly the one fixed call. -/
lemma proveFromStateRead_trace (env : Env) (inputs : MilestoneProofInputs) :
    (proveFromStateRead env inputs).2 = [] ∨
    (proveFromStateRead env inputs).2 = [theValidatorInfoCall] := by
  unfold proveFromStateRead
  split
  · left; rfl
  · split
    · left; rfl
    · split
      · right; rfl
      · split
        · right; rfl
        · split
          · right; rfl
          · split
            · right; rfl
            · right; rfl

/-- The whole of `prove` issues at most the one fixed contract call. -/
lemma prove_trace (env : Env) (inputs : MilestoneProofInputs) :
    (prove env inputs).2 = [] ∨ (prove env inputs).2 = [theValidatorInfoCall] := by
  unfold prove
  split
  · left; rfl
  · split
    · split
      · unfold proveFromLengthCheck
        split
        · split
          · exact proveFromStateRead_trace env inputs
          · left; rfl
        · left; rfl
      · left; rfl
    · left; rfl

/-- Totality of `buildStakes`: out of bounds exactly when the powers array is
exhausted before the signer addresses are. -/
lemma buildStakes_total (powers : List Nat) :
    ∀ (sgn : List Address) (i : Nat) (acc : List (Address × Nat)),
      (powers.length < i + sgn.length ∧ 0 < sgn.length →
        buildStakes powers sgn i acc = none) ∧
      (i + sgn.length ≤ powers.length →
        ∃ m, buildStakes powers sgn i acc = some m) := by
  intro sgn
  induction sgn with
  | nil =>
    intro i acc
    exact ⟨fun h => absurd h.2 (by simp), fun _ => ⟨acc, rfl⟩⟩
  | cons s rest ih =>
    intro i acc
    constructor
    · rintro ⟨hlt, _⟩
      cases hg : powers[i]? with
      | none => simp [buildStakes, hg]
      | some p =>
        have hi : i < powers.length := by
          by_contra hc
          rw [List.getElem?_eq_none (by omega)] at hg
          cases hg
        rcases Nat.eq_zero_or_pos rest.length with h0 | h0
        · exfalso
          simp [List.length_cons] at hlt
          omega
        · simp only [buildStakes, hg]
          refine (ih (i + 1) ((s, p) :: acc)).1 ⟨?_, h0⟩
          simp [List.length_cons] at hlt
          omega
    · intro hle
      have hi : i < powers.length := by
        simp [List.length_cons] at hle
        omega
      cases hg : powers[i]? with
      | none =>
        have := List.getElem?_eq_none_iff.mp hg
        omega
      | some p =>
        simp only [buildStakes, hg]
        refine (ih (i + 1) ((s, p) :: acc)).2 ?_
        simp [List.length_cons] at hle ⊢
        omega

/-!
The claims.
-/

/-- C1: the claim says that when the three sequences have equal length, every
signer is registered, every precommit is bound to the transaction hash, every
signature verifies and the signers' stake strictly exceeds
`ceil(2 * total_power / 3)`, `prove` succeeds — in particular with one signer
holding 100 of 100 total power.  The code does the opposite: `prove` binds the
result of `add_mod` to `_` and `majority_power` (immutable) stays `0`, so the
final comparison is `0 ≤ 67` and `prove` panics with the quorum error.  This
theorem evaluates the embedding at exactly the spec's concrete full-power
scenario (`env1` / `inputs1`), where every hypothesis of the claim holds. -/
theorem prove_rejects_full_power_quorum :
    prove env1 inputs1 =
      (Except.error ProveError.quorumNotReached, [theValidatorInfoCall]) := rfl

/-- C2: the claim says the accumulated power used in the final comparison is
the sum of the listed signers' stakes.  In the code the `add_mod` result is
discarded, so the loop returns its initial accumulator `0` even though the
spec-side sum (`signedStakeSum`, one occurrence of stake 100) is `100`. -/
theorem accumulator_never_updated :
    precommitLoop env1 [(1, 100)] 0 [([1], "s", 1)] 0 0 = Except.ok 0 ∧
    signedStakeSum [(1, 100)] [1] = some 100 :=
  ⟨rfl, rfl⟩

/-- C3: whenever the accumulated power handed to the final threshold
comparison is less than or equal to the computed `expected_majority`, the
comparison stage of `prove` fails with the quorum error — equality included,
since the code requires the strict inequality `majority_power >
expected_majority`.  (`proveFromStateRead` returns exactly
`thresholdStage majority_power total_power` whenever the loop completes.) -/
theorem thresholdStage_rejects_le_majority (majority_power total_power : Nat)
    (h : majority_power ≤ expectedMajority total_power) :
    thresholdStage majority_power total_power =
      Except.error ProveError.quorumNotReached := by
  simp [thresholdStage, h]

/-- Witness for C3 at the exact boundary: with total power 100 the computed
threshold is `ceil(200/3) = 67`, and accumulated power exactly 67 fails. -/
theorem thresholdStage_boundary_witness :
    67 ≤ expectedMajority 100 ∧
    thresholdStage 67 100 = Except.error ProveError.quorumNotReached :=
  ⟨by decide, thresholdStage_rejects_le_majority 67 100 (by decide)⟩

/-- C4 (counterexample): the claim says `expected_majority` equals
`ceil(2 * total_power / 3)` in exact arithmetic for every 256-bit
`total_power`.  At `total_power = 2^256 - 1` the code's
`mul_mod(2, Uint::MAX)` wraps to `0`, so `expected_majority = 0` while the
exact value is astronomically larger. -/
theorem expectedMajority_wraps_at_max :
    expectedMajority (2 ^ 256 - 1) ≠ divCeil (2 * (2 ^ 256 - 1)) 3 := by
  decide

/-- C4 (amended): for every `total_power < 2^255` the doubling
`mul_mod(2, Uint::MAX)` does not wrap, and `expected_majority` equals the
exact integer ceiling `ceil(2 * total_power / 3)`. -/
theorem expectedMajority_exact_below_pow255 (total_power : Nat)
    (h : total_power < 2 ^ 255) :
    expectedMajority total_power = divCeil (2 * total_power) 3 := by
  unfold expectedMajority mulMod U256MAX
  have h2 : total_power * 2 < 2 ^ 256 - 1 := by
    have hp : (2 : Nat) ^ 256 = 2 ^ 255 * 2 := by rw [pow_succ]
    omega
  rw [Nat.mod_eq_of_lt h2, Nat.mul_comm]

/-- Witness for the amended C4 at `total_power = 100`. -/
theorem expectedMajority_exact_witness :
    100 < 2 ^ 255 ∧ expectedMajority 100 = divCeil (2 * 100) 3 :=
  ⟨by norm_num, expectedMajority_exact_below_pow255 100 (by norm_num)⟩

/-- C5: when the per-precommit loop reaches index `i` and `signers[i]` is not
a key of the validator stake registry, it fails there with the unauthorized
signer error — for every environment, hence regardless of whether the
message-binding or signature check at that index would succeed: the
membership check comes first and neither `verify_precommit` nor
`verify_signature` is consulted. -/
theorem membership_check_precedes_signature (env : Env)
    (validator_stakes : List (Address × Nat)) (tx_hash : Nat)
    (precommit : List Nat) (sig : String) (signer : Address)
    (rest : List (List Nat × String × Address)) (i majority_power : Nat)
    (h : stakesLookup validator_stakes signer = none) :
    precommitLoop env validator_stakes tx_hash
        ((precommit, sig, signer) :: rest) i majority_power =
      Except.error (ProveError.unauthorizedSigner i) := by
  simp [precommitLoop, h]

/-- Witness for C5: an unregistered signer fails at index 0 under `env1`,
whose `verify_signature` accepts everything. -/
theorem membership_check_witness :
    stakesLookup [] 1 = none ∧
    precommitLoop env1 [] 0 [([1], "s", 1)] 0 0 =
      Except.error (ProveError.unauthorizedSigner 0) :=
  ⟨rfl, membership_check_precedes_signature env1 [] 0 [1] "s" 1 [] 0 0 rfl⟩

/-- C6: when the three parallel sequences do not all have the same length,
`prove` fails, and it fails before any element of those sequences is accessed
by index: no contract call is issued (empty trace) and the outcome is
unchanged when every element of the three sequences is replaced (same
lengths, arbitrary other contents) — only data from stages before the length
check can influence the result. -/
theorem length_mismatch_rejected_early (env : Env)
    (inputs inputs2 : MilestoneProofInputs)
    (hmis : ¬ (inputs.precommits.length = inputs.sigs.length ∧
               inputs.sigs.length = inputs.signers.length))
    (hf1 : inputs2.tx_data = inputs.tx_data)
    (hf2 : inputs2.tx_hash = inputs.tx_hash)
    (hf3 : inputs2.bor_header = inputs.bor_header)
    (h1 : inputs2.precommits.length = inputs.precommits.length)
    (h2 : inputs2.sigs.length = inputs.sigs.length)
    (h3 : inputs2.signers.length = inputs.signers.length) :
    (prove env inputs).1 ≠ Except.ok () ∧ (prove env inputs).2 = [] ∧
    prove env inputs = prove env inputs2 := by
  have hmis2 : ¬ (inputs2.precommits.length = inputs2.sigs.length ∧
                  inputs2.sigs.length = inputs2.signers.length) := by
    rw [h1, h2, h3]; exact hmis
  unfold prove
  rw [hf1, hf2, hf3]
  cases htx : env.verify_tx_data inputs.tx_data inputs.tx_hash with
  | none => exact ⟨by simp, rfl, rfl⟩
  | some m =>
    by_cases he : m.end_block = inputs.bor_header.number
    · by_cases hh : m.hash = env.hash_slow inputs.bor_header
      · simp only [he, hh, if_true, eq_self_iff_true]
        rw [proveFromLengthCheck_mismatch env inputs hmis,
          proveFromLengthCheck_mismatch env inputs2 hmis2]
        exact ⟨by simp, by trivial, by trivial⟩
      · simp only [he, if_true, eq_self_iff_true, if_neg hh]
        exact ⟨by simp, by trivial, by trivial⟩
    · simp only [if_neg he]
      exact ⟨by simp, by trivial, by trivial⟩

/-- Witness for C6: one precommit and one signer but no signature; the
companion input replaces every element of the three sequences. -/
theorem length_mismatch_witness :
    (prove env1 inputsMis).1 ≠ Except.ok () ∧ (prove env1 inputsMis).2 = [] ∧
    prove env1 inputsMis = prove env1 inputsMis2 :=
  length_mismatch_rejected_early env1 inputsMis inputsMis2 (by decide)
    rfl rfl rfl rfl rfl rfl

/-- C7: once the transaction data passes the integrity check and decodes to a
milestone, `prove` fails when the header's block number differs from the
milestone's end block; it fails when the number matches but the header's
recomputed canonical hash differs from the milestone's hash; and it proceeds
past the header stage (to the length check and the rest) exactly when both
match. -/
theorem header_consistency_checked (env : Env) (inputs : MilestoneProofInputs)
    (m : Milestone)
    (htx : env.verify_tx_data inputs.tx_data inputs.tx_hash = some m) :
    (m.end_block ≠ inputs.bor_header.number →
      (prove env inputs).1 = Except.error ProveError.headerNumberMismatch) ∧
    (m.end_block = inputs.bor_header.number →
      m.hash ≠ env.hash_slow inputs.bor_header →
      (prove env inputs).1 = Except.error ProveError.headerHashMismatch) ∧
    (m.end_block = inputs.bor_header.number →
      m.hash = env.hash_slow inputs.bor_header →
      prove env inputs = proveFromLengthCheck env inputs) := by
  unfold prove
  rw [htx]
  refine ⟨fun hn => ?_, fun he hh => ?_, fun he hh => ?_⟩
  · simp only [if_neg hn]
  · simp only [he, eq_self_iff_true, if_true, if_neg hh]
  · simp only [he, hh, eq_self_iff_true, if_true]

/-- Witness for C7: under `env1` / `inputs1` both header fields match and
`prove` continues with the length-check stage. -/
theorem header_consistency_witness :
    prove env1 inputs1 = proveFromLengthCheck env1 inputs1 :=
  (header_consistency_checked env1 inputs1 ⟨5, [7]⟩ rfl).2.2 rfl rfl

/-- C8: with empty precommit, signature and signer sequences `prove` always
fails, whatever the environment — hence for every decoded `total_power`,
including the degenerate `total_power = 0`, where the threshold is `0` and
the strict comparison `0 > 0` still fails closed. -/
theorem empty_votes_fail_closed (env : Env) (inputs : MilestoneProofInputs)
    (_h1 : inputs.precommits = []) (_h2 : inputs.sigs = [])
    (_h3 : inputs.signers = []) :
    (prove env inputs).1 ≠ Except.ok () :=
  prove_never_ok env inputs

/-- Witness for C8: the all-zero degenerate case (`env0` decodes an empty
validator set with total power 0). -/
theorem empty_votes_witness : (prove env0 inputsEmpty).1 ≠ Except.ok () :=
  empty_votes_fail_closed env0 inputsEmpty rfl rfl rfl

/-- C9: every run of `prove` issues at most one contract call through the
verified-state view, always the fixed `getEncodedValidatorInfo` input
(`theValidatorInfoCall`), whose contract address is the fixed
`VERIFIER_CONTRACT` and whose caller is the all-zero address; and whenever
the view is successfully constructed (sketch deserialized, executor built),
exactly one such call is issued.  Its return value is decoded by
`Env.abi_decode_returns` into the triple of signer addresses, per-signer
powers and total power consumed by the rest of `prove`. -/
theorem single_fixed_validator_info_call (env : Env)
    (inputs : MilestoneProofInputs) :
    ((prove env inputs).2 = [] ∨ (prove env inputs).2 = [theValidatorInfoCall]) ∧
    theValidatorInfoCall.contract_address = VERIFIER_CONTRACT ∧
    theValidatorInfoCall.caller_address = 0 ∧
    theValidatorInfoCall.calldata = CallData.getEncodedValidatorInfo ∧
    (∀ state_sketch executor,
      env.deserialize inputs.state_sketch_bytes = some state_sketch →
      env.clientExecutorNew state_sketch = some executor →
      (proveFromStateRead env inputs).2 = [theValidatorInfoCall]) := by
  refine ⟨prove_trace env inputs, rfl, rfl, rfl, ?_⟩
  intro state_sketch executor hdes hexe
  unfold proveFromStateRead
  split
  · rename_i hne
    rw [hdes] at hne
    cases hne
  · rename_i sk hsk
    rw [hdes] at hsk
    injection hsk with hsk
    subst hsk
    split
    · rename_i hne
      rw [hexe] at hne
      cases hne
    · split
      · rfl
      · split
        · rfl
        · split
          · rfl
          · split
            · rfl
            · rfl

/-- Witness for C9: under `env1` the view opens and exactly the fixed call is
issued. -/
theorem validator_info_call_witness :
    (proveFromStateRead env1 inputs1).2 = [theValidatorInfoCall] :=
  (single_fixed_validator_info_call env1 inputs1).2.2.2.2 0 0 rfl rfl

/-- C10: building the address-to-power registry indexes `powers[i]` for every
signer index `i` with no defensive length check, so when the powers array is
shorter than the addresses array the construction hits an out-of-bounds index
and aborts (`proveFromStateRead` maps this to its index-out-of-bounds
failure); construction is total exactly under the precondition that the
powers array is at least as long as the addresses array. -/
theorem registry_build_oob_on_short_powers (sgn : List Address)
    (powers : List Nat) :
    (powers.length < sgn.length → buildStakes powers sgn 0 [] = none) ∧
    (sgn.length ≤ powers.length → ∃ m, buildStakes powers sgn 0 [] = some m) := by
  constructor
  · intro h
    exact (buildStakes_total powers sgn 0 []).1 ⟨by omega, by omega⟩
  · intro h
    exact (buildStakes_total powers sgn 0 []).2 (by omega)

/-- Witness for C10: two signer addresses but a single power entry. -/
theorem registry_build_oob_witness : buildStakes [100] [1, 2] 0 [] = none :=
  (registry_build_oob_on_short_powers [1, 2] [100]).1 (by decide)

end PosConsensus
